import Mathlib

/-!
Verification development for the resistance-cascade simulation engine.

The definitions below are a shallow embedding of the Python source in
`resistance_cascade/` (agent.py, model.py, random_walker.py, scheduler.py):
pure fragments become Lean functions, stateful fragments become explicit
state passing, random draws become explicit oracle parameters, and fallible
operations (Python exceptions) return `Option`.  Real-valued quantities that
only feed comparisons are modelled over `ℚ`; the one genuinely transcendental
quantity (the arrest-probability estimate, which uses `exp`) is modelled
over `ℝ` with `Real.exp`.
-/

namespace ResistanceCascade

/-- Public condition of a Citizen agent (`agent.py`).  Security agents carry
the distinguished string `"Security"` in the source; they never enter the
citizen state machine, so they are modelled separately. -/
inductive Condition where
  | Support
  | Oppose
  | Active
  | Jailed
  deriving DecidableEq, Repr

/-- Grid position.  The source grid is a toroidal `MultiGrid`. -/
abbrev Pos := Nat × Nat

/-- The slice of a Citizen's mutable state used by the decide-phase
condition assignment in `Citizen.determine_condition` (agent.py lines
172-181): the pending condition `_update_condition` (initially `None`,
hence `Option`), the per-step `flip` flag and the monotone `ever_flipped`
flag. -/
structure DecideState where
  updateCondition : Option Condition
  flip : Bool
  everFlipped : Bool
  deriving DecidableEq, Repr

/-- Embedding of the tail of `Citizen.determine_condition` (agent.py lines
172-181): given the computed `active_level`, `oppose_level` and the uniform
draw `random_activation`, assign the pending condition, setting `flip` and
`ever_flipped` exactly when the pending condition was not already `Active`
and the active branch is taken. -/
def assignCondition (activeLevel opposeLevel randomActivation : ℚ)
    (s : DecideState) : DecideState :=
  if activeLevel > randomActivation then
    if s.updateCondition ≠ some Condition.Active then
      { updateCondition := some Condition.Active, flip := true, everFlipped := true }
    else
      { s with updateCondition := some Condition.Active }
  else if opposeLevel > randomActivation then
    { s with updateCondition := some Condition.Oppose }
  else
    { s with updateCondition := some Condition.Support }

/-- Embedding of the decide-phase flip handling of `Citizen.step` (agent.py
lines 63-76): `flip` is reset to `False` at the top of every step, then
`determine_condition` runs its condition assignment. -/
def citizenDecide (activeLevel opposeLevel randomActivation : ℚ)
    (s : DecideState) : DecideState :=
  assignCondition activeLevel opposeLevel randomActivation { s with flip := false }

/-- What a Citizen sees in one cell of its vision during the neighbor
census: another Citizen with some committed condition, or a Security
agent. -/
inductive NeighborAgent where
  | citizen (cond : Condition)
  | security
  deriving DecidableEq, Repr

/-- The four census counters of `Citizen.count_neigbhors` (agent.py lines
97-117).  The source initialises `actives_in_vision` and
`support_in_vision` to 1 (the self counts once as Active and once as
Support) and the other two counters to 0. -/
structure NeighborCounts where
  activesInVision : Nat
  opposedInVision : Nat
  supportInVision : Nat
  securityInVision : Nat
  deriving DecidableEq, Repr

/-- One loop iteration of `Citizen.count_neigbhors`: bump the counter
matching the neighbor's type and condition (Jailed citizens match no
branch and are not counted). -/
def countOne (acc : NeighborCounts) (a : NeighborAgent) : NeighborCounts :=
  match a with
  | NeighborAgent.citizen Condition.Active =>
      { acc with activesInVision := acc.activesInVision + 1 }
  | NeighborAgent.citizen Condition.Oppose =>
      { acc with opposedInVision := acc.opposedInVision + 1 }
  | NeighborAgent.citizen Condition.Support =>
      { acc with supportInVision := acc.supportInVision + 1 }
  | NeighborAgent.citizen Condition.Jailed => acc
  | NeighborAgent.security =>
      { acc with securityInVision := acc.securityInVision + 1 }

/-- Embedding of `Citizen.count_neigbhors` (source spelling kept): fold the
per-neighbor counting over the visible agents, starting from the self-bias
initial counters. -/
def countNeigbhors (neighbors : List NeighborAgent) : NeighborCounts :=
  neighbors.foldl countOne
    { activesInVision := 1, opposedInVision := 0,
      supportInVision := 1, securityInVision := 0 }

/-- Auxiliary: `countOne` never decreases any counter. -/
theorem countOne_le (acc : NeighborCounts) (a : NeighborAgent) :
    acc.activesInVision ≤ (countOne acc a).activesInVision ∧
    acc.supportInVision ≤ (countOne acc a).supportInVision := by
  cases a with
  | citizen c => cases c <;> simp [countOne]
  | security => simp [countOne]

/-- Auxiliary: lower bounds on the census counters are preserved by the
fold. -/
theorem countNeigbhors_foldl_le (ns : List NeighborAgent) (acc : NeighborCounts) :
    acc.activesInVision ≤ (ns.foldl countOne acc).activesInVision ∧
    acc.supportInVision ≤ (ns.foldl countOne acc).supportInVision := by
  induction ns generalizing acc with
  | nil => exact ⟨Nat.le_refl _, Nat.le_refl _⟩
  | cons a tl ih =>
      have h1 := countOne_le acc a
      have h2 := ih (countOne acc a)
      exact ⟨Nat.le_trans h1.1 h2.1, Nat.le_trans h1.2 h2.2⟩

/-- C1: in every Citizen decide-phase, after the uniform draw `r`:
if `active_level > r` the pending condition becomes `Active`, with `flip`
and `ever_flipped` set to true exactly when the pending condition was not
already `Active`; else if `oppose_level > r` it becomes `Oppose`; else it
becomes `Support`.  The `Active` test comes strictly first, so when both
levels exceed `r` the result is `Active`; and `flip` is true only when the
condition transitions into `Active` from a non-Active condition. -/
theorem citizen_decide_assignment (aL oL r : ℚ) (s : DecideState) :
    ((citizenDecide aL oL r s).updateCondition =
      (if aL > r then some Condition.Active
       else if oL > r then some Condition.Oppose
       else some Condition.Support)) ∧
    ((citizenDecide aL oL r s).flip = true ↔
      (aL > r ∧ s.updateCondition ≠ some Condition.Active)) ∧
    ((citizenDecide aL oL r s).everFlipped = true ↔
      (s.everFlipped = true ∨ (aL > r ∧ s.updateCondition ≠ some Condition.Active))) ∧
    ((aL > r ∧ oL > r) →
      (citizenDecide aL oL r s).updateCondition = some Condition.Active) ∧
    ((citizenDecide aL oL r s).flip = true →
      ((citizenDecide aL oL r s).updateCondition = some Condition.Active ∧
        s.updateCondition ≠ some Condition.Active)) := by
  unfold citizenDecide assignCondition
  by_cases ha : aL > r
  · by_cases hc : s.updateCondition = some Condition.Active
    · simp [ha, hc]
    · simp [ha, hc]
  · by_cases ho : oL > r
    · simp [ha, ho]
    · simp [ha, ho]

/-- C5: the neighbor census always reports `actives_in_vision ≥ 1` and
`support_in_vision ≥ 1` (the self counts as one Active and one Support by
construction), so `support_in_vision` is never zero and the active-ratio
division `(actives + opposed) / support` is well defined. -/
theorem countNeigbhors_self_bias (ns : List NeighborAgent) :
    1 ≤ (countNeigbhors ns).activesInVision ∧
    1 ≤ (countNeigbhors ns).supportInVision ∧
    (countNeigbhors ns).supportInVision ≠ 0 := by
  have h := countNeigbhors_foldl_le ns
    { activesInVision := 1, opposedInVision := 0,
      supportInVision := 1, securityInVision := 0 }
  simp only [countNeigbhors]
  simp only at h
  exact ⟨h.1, h.2, by omega⟩

/-- Toroidal grid dimensions of the mesa `MultiGrid` (`model.py` line 118,
`torus=True`). -/
structure Torus where
  width : Nat
  height : Nat
  deriving DecidableEq, Repr

/-- Wrap an integer coordinate onto a toroidal axis of size `m`. -/
def wrap (m : Nat) (x : Int) : Nat := (x % (m : Int)).toNat

/-- All Moore offsets with Chebyshev norm at most `radius`. -/
def mooreOffsets (radius : Nat) : List (Int × Int) :=
  (List.range (2 * radius + 1)).flatMap (fun i =>
    (List.range (2 * radius + 1)).map (fun j =>
      ((i : Int) - (radius : Int), (j : Int) - (radius : Int))))

/-- Embedding of mesa `grid.get_neighborhood(pos, moore=True, include_center,
radius)` on a torus: the cells at Chebyshev offset at most `radius` from
`pos`, the centre offset `(0, 0)` kept only when `includeCenter` is true.
The defaults in mesa are `include_center=False` and `radius=1`. -/
def getNeighborhood (g : Torus) (p : Pos) (includeCenter : Bool) (radius : Nat) :
    List Pos :=
  ((mooreOffsets radius).filter
      (fun d => includeCenter || decide (d ≠ ((0 : Int), (0 : Int))))).map
    (fun d => (wrap g.width ((p.1 : Int) + d.1), wrap g.height ((p.2 : Int) + d.2)))

/-- The model-level configuration constants consulted (or, for `movement`,
merely stored) by the movement code: `ResistanceCascade.__init__` stores
`self.movement` (model.py line 94) and `self.multiple_agents_per_cell`
(line 95). -/
structure ModelConfig where
  grid : Torus
  movement : Bool
  multipleAgentsPerCell : Bool
  deriving DecidableEq, Repr

/-- Embedding of `RandomWalker.random_move` (random_walker.py lines 40-61):
candidate cells are the radius-1 Moore neighborhood with the current cell
included (`get_neighborhood(self.pos, self.moore, True)`); when multiple
agents per cell are disallowed the candidates are filtered to currently
empty cells; if no candidate remains the agent stays put, otherwise the
uniform choice is modelled by the oracle index `choice` taken modulo the
number of candidates.  Note the source consults
`self.model.multiple_agents_per_cell` but never `self.model.movement`. -/
def randomMove (cfg : ModelConfig) (empties : List Pos) (choice : Nat) (p : Pos) :
    Pos :=
  let nextMoves := getNeighborhood cfg.grid p true 1
  let nextMoves :=
    if cfg.multipleAgentsPerCell then nextMoves
    else nextMoves.filter (fun c => decide (c ∈ empties))
  if nextMoves.isEmpty then p
  else nextMoves.getD (choice % nextMoves.length) p

/-- The mutable Citizen state touched by the commit-phase `Citizen.advance`:
committed condition (Python strings, `Option` because `_update_condition`
starts as `None` and is copied into `condition` verbatim), jail sentence,
pending condition and grid position. -/
structure CitizenState where
  condition : Option Condition
  jailSentence : Nat
  updateCondition : Option Condition
  pos : Pos
  deriving DecidableEq, Repr

/-- Embedding of `Citizen.advance` (agent.py lines 78-95).  If the jail
sentence is positive it is decremented and nothing else happens.  Otherwise,
if the condition is `Jailed`, the agent is released onto a uniformly chosen
empty cell (`self.random.choice(list(self.model.grid.empties))`, which
raises `IndexError` — modelled as `none` — when no empty cell exists) and
its condition is set to `Support`; then, with no early return, the source
unconditionally overwrites `condition` with `_update_condition` and invokes
`random_move`.  The oracle indices `emptyChoice` and `moveChoice` stand for
the two random draws. -/
def citizenAdvance (cfg : ModelConfig) (empties : List Pos)
    (emptyChoice moveChoice : Nat) (c : CitizenState) : Option CitizenState :=
  if 0 < c.jailSentence then
    some { c with jailSentence := c.jailSentence - 1 }
  else
    let afterRelease : Option CitizenState :=
      if c.condition = some Condition.Jailed then
        if empties.isEmpty then none
        else
          some { c with
                 pos := empties.getD (emptyChoice % empties.length) c.pos,
                 condition := some Condition.Support }
      else some c
    match afterRelease with
    | none => none
    | some c1 =>
        let c2 : CitizenState := { c1 with condition := c1.updateCondition }
        some { c2 with pos := randomMove cfg empties moveChoice c2.pos }

/-- Embedding of the arrest effect on the chosen arrestee
(`Security.arrest`, agent.py lines 259-263 and 265-269): the sentence is
drawn by `self.random.randint(0, self.model.max_jail_term)` — inclusive at
both ends, so `sentenceDraw` ranges over `0 ≤ sentenceDraw ≤ max_jail_term`
— then `jail_sentence` is set to the draw and `condition` to `Jailed` (the
agent is also removed from the grid). -/
def arrestEffect (sentenceDraw : Nat) (c : CitizenState) : CitizenState :=
  { c with jailSentence := sentenceDraw, condition := some Condition.Jailed }

/-- What `Security.arrest` reads from each visible Citizen: position,
committed condition, and the reported `activation` value. -/
structure CitizenView where
  pos : Pos
  condition : Option Condition
  activation : ℚ
  deriving DecidableEq, Repr

/-- Embedding of the candidate gathering of `Security.arrest` (agent.py
lines 242-255): the neighborhood is
`self.model.grid.get_neighborhood(self.pos, moore=True)` — mesa defaults
`include_center=False`, `radius=1` — and the visible Citizens are
partitioned into Active candidates and Oppose candidates whose `activation`
exceeds the model-wide `threshold_constant_sigmoid`. -/
def arrestCandidates (g : Torus) (secPos : Pos) (thresholdConstantSigmoid : ℚ)
    (citizens : List CitizenView) : List CitizenView × List CitizenView :=
  let neighborCells := getNeighborhood g secPos false 1
  let visible := citizens.filter (fun c => decide (c.pos ∈ neighborCells))
  (visible.filter (fun c => decide (c.condition = some Condition.Active)),
   visible.filter (fun c => decide (c.condition = some Condition.Oppose ∧
     c.activation > thresholdConstantSigmoid)))

/-- Number of Citizens whose committed condition is Active or Jailed, as
counted at the end of `ResistanceCascade.step` (model.py lines 257-260). -/
def activeOrJailedCount (conds : List (Option Condition)) : Nat :=
  (conds.filter (fun c => decide (c = some Condition.Active ∨
    c = some Condition.Jailed))).length

/-- The two run-level flags of the model: `revolution` and `running`. -/
structure ModelFlags where
  revolution : Bool
  running : Bool
  deriving DecidableEq, Repr

/-- Embedding of the end-of-step checks of `ResistanceCascade.step`
(model.py lines 256-280), taken after `self.iteration += 1`, so `iteration`
here is the post-increment value: if the proportion of Active-or-Jailed
Citizens reaches 0.95 the revolution flag is set and `running` cleared;
afterwards, if `iteration > max_iters`, `running` is cleared as well.
The float division of the source is modelled exactly over `ℚ`. -/
def stepCheck (conds : List (Option Condition)) (citizenCount : Nat)
    (iteration maxIters : Nat) (f : ModelFlags) : ModelFlags :=
  let proportionActiveOrJailed : ℚ :=
    (activeOrJailedCount conds : ℚ) / (citizenCount : ℚ)
  let f1 :=
    if proportionActiveOrJailed ≥ 95 / 100 then
      { revolution := true, running := false }
    else f
  if iteration > maxIters then { f1 with running := false } else f1

/-- Embedding of the seed resolution in `ResistanceCascade.__init__`
(model.py lines 71-81): when `seed is None` and `random_seed` is false the
seed silently becomes 42; when `random_seed` is true a fresh value is drawn
from the global numpy generator (oracle `npRandomDraw`); the resolved value
is stored as `self._seed` and used to seed the model's single random
stream. -/
def resolveSeed (seed : Option Int) (randomSeed : Bool) (npRandomDraw : Int) :
    Option Int :=
  let seed1 := if seed = none ∧ randomSeed = false then some 42 else seed
  if randomSeed then some npRandomDraw else seed1

/-- C2 (failing input): a Citizen whose `jail_sentence` has reached 0 while
`Jailed`, with stale pending condition `Active` (the pending condition of
the step it was arrested in — jailed Citizens skip the decide-phase, so it
is never refreshed), is released by `advance` onto the empty cell but ends
that advance with `condition = Active`, not `Support`: the release branch's
assignment `self.condition = "Support"` is unconditionally overwritten by
`self.condition = self._update_condition` on the next line of the source. -/
theorem release_overwritten_by_stale_pending :
    (citizenAdvance { grid := ⟨40, 40⟩, movement := true, multipleAgentsPerCell := true }
        [(0, 0)] 0 0
        { condition := some Condition.Jailed, jailSentence := 0,
          updateCondition := some Condition.Active, pos := (5, 5) }).map
      CitizenState.condition = some (some Condition.Active) := by decide

/-- C9 (failing input): when a release needs an empty cell and none exists,
`Citizen.advance` evaluates `self.random.choice(list(self.model.grid.empties))`
on an empty list, which raises an uncaught `IndexError` (modelled as `none`):
the step crashes instead of reporting the resource-exhaustion condition and
leaving the Citizen Jailed. -/
theorem release_with_no_empty_cells_crashes :
    citizenAdvance { grid := ⟨40, 40⟩, movement := true, multipleAgentsPerCell := false }
        [] 0 0
        { condition := some Condition.Jailed, jailSentence := 0,
          updateCondition := some Condition.Support, pos := (5, 5) }
      = none := by decide

/-- C6 (counterexample): with the simulation constructed with
`movement = False`, a Support Citizen's position still changes during the
commit-phase — `random_move` never consults `self.model.movement`, so the
Citizen at (5, 5) moves to (4, 4). -/
theorem movement_disabled_still_moves :
    ({ grid := ⟨40, 40⟩, movement := false, multipleAgentsPerCell := true } :
        ModelConfig).movement = false ∧
    (citizenAdvance { grid := ⟨40, 40⟩, movement := false, multipleAgentsPerCell := true }
        [] 0 0
        { condition := some Condition.Support, jailSentence := 0,
          updateCondition := some Condition.Support, pos := (5, 5) }).map
      CitizenState.pos = some (4, 4) ∧
    ((4, 4) : Pos) ≠ ((5, 5) : Pos) := by decide

/-- C6 (amended): the random-move behavior and the whole commit-phase
`advance` are invoked identically whatever the stored `movement` flag is —
the flag is stored by the model constructor but never read, so disabling
movement does not prevent position changes. -/
theorem random_move_ignores_movement_flag (g : Torus) (multi : Bool)
    (empties : List Pos) (emptyChoice moveChoice : Nat) (p : Pos)
    (c : CitizenState) (b b' : Bool) :
    randomMove { grid := g, movement := b, multipleAgentsPerCell := multi }
        empties moveChoice p
      = randomMove { grid := g, movement := b', multipleAgentsPerCell := multi }
        empties moveChoice p ∧
    citizenAdvance { grid := g, movement := b, multipleAgentsPerCell := multi }
        empties emptyChoice moveChoice c
      = citizenAdvance { grid := g, movement := b', multipleAgentsPerCell := multi }
        empties emptyChoice moveChoice c := ⟨rfl, rfl⟩

/-- C7 (counterexample): `random.randint(0, max_jail_term)` includes 0, so
an arrest can set `condition = Jailed` with `jail_sentence = 0`; the arrest
happens in the Security commit-phase, the last mutation of the step, so at
the end of that step the Citizen is Jailed with a zero sentence, violating
the claimed invariant `condition = Jailed → jail_sentence > 0`. -/
theorem jailed_with_zero_sentence_possible :
    (arrestEffect 0
        { condition := some Condition.Active, jailSentence := 0,
          updateCondition := some Condition.Active, pos := (3, 3) }).condition
        = some Condition.Jailed ∧
    (arrestEffect 0
        { condition := some Condition.Active, jailSentence := 0,
          updateCondition := some Condition.Active, pos := (3, 3) }).jailSentence
        = 0 := by decide

/-- C7 (amended): a Citizen may be `Jailed` with `jail_sentence = 0` at the
end of a step (a zero sentence draw, or the step whose decrement reaches 0);
such a Citizen is released — its condition stops being `Jailed` — on its
next `advance`, provided an empty cell exists and its stale pending
condition is not `Jailed` (the decide-phase only ever assigns
Active/Oppose/Support, so the pending condition is never `Jailed`). -/
theorem jailed_zero_sentence_released_next_advance (cfg : ModelConfig)
    (empties : List Pos) (emptyChoice moveChoice : Nat) (c : CitizenState)
    (hJ : c.condition = some Condition.Jailed) (hS : c.jailSentence = 0)
    (hne : empties ≠ []) (hup : c.updateCondition ≠ some Condition.Jailed) :
    ∃ c', citizenAdvance cfg empties emptyChoice moveChoice c = some c' ∧
      c'.condition ≠ some Condition.Jailed := by
  unfold citizenAdvance
  rw [hS]
  simp only [Nat.lt_irrefl, if_false, hJ, if_true]
  have hempty : empties.isEmpty = false := by
    cases empties with
    | nil => exact absurd rfl hne
    | cons a l => rfl
  simp only [hempty, Bool.false_eq_true, if_false]
  exact ⟨_, rfl, hup⟩

/-- Witness for `jailed_zero_sentence_released_next_advance` at a concrete
jailed Citizen with a single empty cell. -/
theorem jailed_zero_sentence_released_next_advance_witness :
    ∃ c', citizenAdvance { grid := ⟨40, 40⟩, movement := true, multipleAgentsPerCell := true }
        [(0, 0)] 0 0
        { condition := some Condition.Jailed, jailSentence := 0,
          updateCondition := some Condition.Oppose, pos := (5, 5) } = some c' ∧
      c'.condition ≠ some Condition.Jailed :=
  jailed_zero_sentence_released_next_advance _ _ _ _ _
    (by decide) (by decide) (by decide) (by decide)

/-- C4 (counterexample): an Active Citizen at (13, 10) lies inside the
Moore neighborhood of radius `vision = 7` around the Security agent at
(10, 10) on the 40×40 torus, yet it is not an arrest candidate: the source
re-senses with `get_neighborhood(self.pos, moore=True)`, whose default
radius is 1, not the Security agent's vision. -/
theorem arrest_candidates_not_vision_radius :
    ((13, 10) : Pos) ∈ getNeighborhood ⟨40, 40⟩ (10, 10) false 7 ∧
    (arrestCandidates ⟨40, 40⟩ (10, 10) 0
        [{ pos := (13, 10), condition := some Condition.Active, activation := 1 }]).1
      = [] := by decide

/-- C4 (amended): the arrest candidates are gathered from the Moore
neighborhood of radius 1 around the Security agent (the mesa default, the
centre cell excluded), not its vision radius: a Citizen is an Active
candidate iff it sits in that radius-1 neighborhood with condition Active,
and an Oppose candidate iff it sits there with condition Oppose and
`activation` above the model-wide `threshold_constant_sigmoid`. -/
theorem arrest_candidates_radius_one (g : Torus) (secPos : Pos) (t : ℚ)
    (citizens : List CitizenView) (c : CitizenView) :
    (c ∈ (arrestCandidates g secPos t citizens).1 ↔
      (c ∈ citizens ∧ c.pos ∈ getNeighborhood g secPos false 1 ∧
        c.condition = some Condition.Active)) ∧
    (c ∈ (arrestCandidates g secPos t citizens).2 ↔
      (c ∈ citizens ∧ c.pos ∈ getNeighborhood g secPos false 1 ∧
        c.condition = some Condition.Oppose ∧ c.activation > t)) := by
  constructor <;>
    · simp only [arrestCandidates, List.mem_filter, decide_eq_true_eq]
      tauto

/-- C3: at the end of every simulation step (with the revolution flag not
yet set), Revolution-Won — revolution flag true — triggers if and only if
the proportion of Citizens whose condition is Active or Jailed is at least
0.95, and in that case `running` is false at that same step. -/
theorem revolution_tipping_point (conds : List (Option Condition))
    (citizenCount iteration maxIters : Nat) (f : ModelFlags)
    (h : f.revolution = false) :
    ((stepCheck conds citizenCount iteration maxIters f).revolution = true ↔
      (activeOrJailedCount conds : ℚ) / (citizenCount : ℚ) ≥ 95 / 100) ∧
    ((activeOrJailedCount conds : ℚ) / (citizenCount : ℚ) ≥ 95 / 100 →
      (stepCheck conds citizenCount iteration maxIters f).running = false) := by
  unfold stepCheck
  by_cases hp : (activeOrJailedCount conds : ℚ) / (citizenCount : ℚ) ≥ 95 / 100
  · by_cases hi : iteration > maxIters <;> simp [hp, hi]
  · by_cases hi : iteration > maxIters <;> simp [hp, hi, h]

/-- Witness for `revolution_tipping_point`: 19 Active Citizens out of 20
reach the 0.95 tipping point and stop the run. -/
theorem revolution_tipping_point_witness :
    ((stepCheck (List.replicate 19 (some Condition.Active) ++ [some Condition.Support])
        20 1 1000 ⟨false, true⟩).revolution = true ↔
      (activeOrJailedCount
          (List.replicate 19 (some Condition.Active) ++ [some Condition.Support]) : ℚ)
        / (20 : ℚ) ≥ 95 / 100) ∧
    ((activeOrJailedCount
          (List.replicate 19 (some Condition.Active) ++ [some Condition.Support]) : ℚ)
        / (20 : ℚ) ≥ 95 / 100 →
      (stepCheck (List.replicate 19 (some Condition.Active) ++ [some Condition.Support])
        20 1 1000 ⟨false, true⟩).running = false) :=
  revolution_tipping_point _ _ _ _ _ (by decide)

/-- C10: constructing the model with the default arguments `seed = None`
and `random_seed = False` silently resolves the seed to the fixed value 42,
whatever the ambient numpy draw would have been; two instances constructed
with the defaults therefore resolve to the same seed, and since every
random draw of a run derives from the single stream seeded with the
resolved seed, they produce identical runs. -/
theorem default_construction_uses_seed_42 (draw draw' : Int) :
    resolveSeed none false draw = some 42 ∧
    resolveSeed none false draw = resolveSeed none false draw' := ⟨rfl, rfl⟩

/-- Embedding of the arrest-probability estimate of
`Citizen.determine_condition` (agent.py lines 137-146):
`1 - exp(-2.3 * (security_in_vision / actives_in_vision) * (2 * epsilon_probability))`.
The two census counters are naturals; the float arithmetic of the source is
modelled over `ℝ` with the exact exponential. -/
noncomputable def arrestProb (securityInVision activesInVision : Nat)
    (epsilonProbability : ℝ) : ℝ :=
  1 - Real.exp (-(2.3) * ((securityInVision : ℝ) / (activesInVision : ℝ)) *
      (2 * epsilonProbability))

/-- Numeric bounds on `exp 2.3` used for the arrest-probability
calibration facts. -/
theorem exp_twopointthree_bounds :
    (9.6 : ℝ) < Real.exp 2.3 ∧ Real.exp 2.3 < 10.56 := by
  have h1 : Real.exp (2.3 : ℝ) = Real.exp 1 * Real.exp 1 * Real.exp 0.3 := by
    rw [← Real.exp_add, ← Real.exp_add]
    norm_num
  have hlo : (2.7182818283 : ℝ) < Real.exp 1 := Real.exp_one_gt_d9
  have hhi : Real.exp 1 < 2.7182818286 := Real.exp_one_lt_d9
  have h03lo : (1.3 : ℝ) < Real.exp 0.3 := by
    have h := Real.add_one_lt_exp (x := (0.3 : ℝ)) (by norm_num)
    linarith
  have h03hi : Real.exp 0.3 < 10 / 7 := by
    have hneg : (0.7 : ℝ) < Real.exp (-0.3) := by
      have h := Real.add_one_lt_exp (x := (-0.3 : ℝ)) (by norm_num)
      linarith
    rw [Real.exp_neg] at hneg
    have hp : (0 : ℝ) < Real.exp 0.3 := Real.exp_pos _
    have h2 := mul_lt_mul_of_pos_right hneg hp
    rw [inv_mul_cancel₀ (ne_of_gt hp)] at h2
    linarith
  have hp1 : (0 : ℝ) < Real.exp 1 := Real.exp_pos _
  have hp3 : (0 : ℝ) < Real.exp 0.3 := Real.exp_pos _
  constructor
  · rw [h1]
    nlinarith
  · rw [h1]
    nlinarith

/-- C8 (counterexample): at `epsilon_probability = 1` with one Security
officer against a lone active self, the arrest-probability estimate is
`1 - exp(-4.6) ≈ 0.99`: strictly above 0.98, hence not approximately 0.9
(it is not within 0.05 of 0.9). -/
theorem arrest_prob_not_point_nine_at_full_information :
    (0.98 : ℝ) < arrestProb 1 1 1 ∧ ¬ |arrestProb 1 1 1 - 0.9| ≤ 0.05 := by
  have hval : arrestProb 1 1 1 = 1 - Real.exp (-4.6) := by
    unfold arrestProb
    norm_num
  have h46 : Real.exp (4.6 : ℝ) = Real.exp 2.3 * Real.exp 2.3 := by
    rw [← Real.exp_add]
    norm_num
  have hb := exp_twopointthree_bounds
  have hp : (0 : ℝ) < Real.exp 2.3 := Real.exp_pos _
  have hbig : (92.16 : ℝ) < Real.exp 4.6 := by
    rw [h46]
    nlinarith
  have hp46 : (0 : ℝ) < Real.exp 4.6 := Real.exp_pos _
  have hipos : (0 : ℝ) < (Real.exp 4.6)⁻¹ := inv_pos.mpr hp46
  have hsmall : (Real.exp 4.6)⁻¹ * 92.16 < 1 := by
    have h2 := mul_lt_mul_of_pos_left hbig hipos
    rwa [inv_mul_cancel₀ (ne_of_gt hp46)] at h2
  have hmain : (0.98 : ℝ) < arrestProb 1 1 1 := by
    rw [hval, Real.exp_neg]
    linarith
  refine ⟨hmain, fun hab => ?_⟩
  rw [abs_le] at hab
  linarith [hab.2]

/-- C8 (amended): the arrest-probability estimate equals
`1 − exp(−2.3 · (security_in_vision / actives_in_vision) · 2·epsilon_probability)`;
it is 0 at `epsilon_probability = 0` regardless of security presence, and
the ≈0.9 calibration for one officer against a lone active self holds at
`epsilon_probability = 1/2` (the value `sigmoid(0)` taken when the noise
term `epsilon` is 0, i.e. perfect estimation): there the estimate is
`1 - exp(-2.3)`, strictly between 0.89 and 0.91. -/
theorem arrest_prob_calibration (securityInVision activesInVision : Nat) :
    arrestProb securityInVision activesInVision 0 = 0 ∧
    (0.89 : ℝ) < arrestProb 1 1 (1 / 2) ∧ arrestProb 1 1 (1 / 2) < 0.91 := by
  have hb := exp_twopointthree_bounds
  have hp : (0 : ℝ) < Real.exp 2.3 := Real.exp_pos _
  have hipos : (0 : ℝ) < (Real.exp 2.3)⁻¹ := inv_pos.mpr hp
  have hval : arrestProb 1 1 (1 / 2) = 1 - Real.exp (-2.3) := by
    unfold arrestProb
    norm_num
  have hup : (Real.exp 2.3)⁻¹ * 9.6 < 1 := by
    have h2 := mul_lt_mul_of_pos_left hb.1 hipos
    rwa [inv_mul_cancel₀ (ne_of_gt hp)] at h2
  have hdown : (1 : ℝ) < (Real.exp 2.3)⁻¹ * 10.56 := by
    have h2 := mul_lt_mul_of_pos_left hb.2 hipos
    rwa [inv_mul_cancel₀ (ne_of_gt hp)] at h2
  refine ⟨?_, ?_, ?_⟩
  · unfold arrestProb
    norm_num
  · rw [hval, Real.exp_neg]
    linarith
  · rw [hval, Real.exp_neg]
    linarith

end ResistanceCascade
